import Mathlib

/-!
Verification of the uDownloader download-orchestration core.

The definitions below are a shallow embedding of the Python sources:
* `detect_platform`         — src/youdownload/downloader.py:9-30 and
                              src/youdownload/async_downloader.py:26-43 (identical logic);
* `downloadLoop`/`downloadSync` — the retry loop of
                              `AsyncDownloader._download_sync`,
                              src/youdownload/async_downloader.py:113-152;
* throttle, gather, history and config models follow further down.

Machine-level Python details that the claims do not touch (the yt-dlp
option dictionary, timestamps, filesystem paths) are not part of the
embedding; the control flow and the data returned are.
-/

namespace UDownloader

/-- Lower-case a string character by character (embedding of Python
`str.lower()` restricted to the ASCII range, which is all the fixed
domain table uses). -/
def strLower (s : String) : String :=
  String.mk (s.data.map Char.toLower)

/-- `containsSub needle hay`: does `hay` contain `needle` as a contiguous
substring (embedding of Python `needle in hay`)? -/
def containsSub (needle hay : String) : Bool :=
  (hay.data.tails).any (fun suf => needle.data.isPrefixOf suf)

/-- Case-insensitive containment: the needle (already lower-case in the
source's table) is searched in the lowered URL, exactly as the source
computes `url.lower()` and then uses `in`. -/
def containsCI (needle url : String) : Bool :=
  containsSub needle (strLower url)

/-- Condition of the first branch of `detect_platform`. -/
def matchesYouTube (url : String) : Bool :=
  containsCI "youtube.com" url || containsCI "youtu.be" url

/-- Condition of the second branch of `detect_platform`. -/
def matchesTwitter (url : String) : Bool :=
  containsCI "twitter.com" url || containsCI "x.com" url

/-- Condition of the third branch of `detect_platform`. -/
def matchesFacebook (url : String) : Bool :=
  containsCI "facebook.com" url || containsCI "fb.com" url || containsCI "fb.me" url

/-- Condition of the fourth branch of `detect_platform`. -/
def matchesInstagram (url : String) : Bool :=
  containsCI "instagram.com" url

/-- Condition of the fifth branch of `detect_platform`. -/
def matchesTikTok (url : String) : Bool :=
  containsCI "tiktok.com" url

/-- Condition of the sixth branch of `detect_platform`. -/
def matchesVimeo (url : String) : Bool :=
  containsCI "vimeo.com" url

/-- Embedding of `detect_platform` (downloader.py:9-30; the method
`AsyncDownloader.detect_platform` at async_downloader.py:26-43 is the
same chain of tests in the same order). -/
def detect_platform (url : String) : String :=
  if matchesYouTube url then "YouTube"
  else if matchesTwitter url then "Twitter"
  else if matchesFacebook url then "Facebook"
  else if matchesInstagram url then "Instagram"
  else if matchesTikTok url then "TikTok"
  else if matchesVimeo url then "Vimeo"
  else "Other"

/-- Result of one engine call (`ydl.extract_info` inside the retry loop):
either the extracted title, or the raised exception's message. -/
inductive AttemptResult where
  | ok (title : String)
  | err (msg : String)
deriving DecidableEq, Repr

/-- The result dictionary built by `_download_sync`.  The success dict of
the source additionally carries `timestamp` and `output_dir`; those fields
are time/filesystem data no claim mentions and are left out.  A success
dict has no `error` key, modelled as `error = none`. -/
structure Outcome where
  success : Bool
  platform : String
  url : String
  title : String
  error : Option String
deriving DecidableEq, Repr

/-- Python `str(x)` applied to an `Optional` exception message:
`str(None) = "None"`, otherwise the message itself. -/
def pyStrOpt : Option String → String
  | none => "None"
  | some s => s

/-- The retry loop of `_download_sync` (async_downloader.py:113-152).
State per iteration: `lastError` (the `last_error` variable), `attempt`
(the attempt counter), and the fuel `remaining = retries - attempt`, so
that `remaining = 0` is exactly the exit of `while attempt < retries`.
`cancelled n` is the value of `not self.active_downloads.get(download_id,
True)` observed at the top of iteration `n`; `engine n` is the outcome of
the engine call made on attempt `n`.  Returns the outcome together with
the number of engine calls performed. -/
def downloadLoop (platform url : String) (cancelled : Nat → Bool)
    (engine : Nat → AttemptResult) :
    Option String → Nat → Nat → Outcome × Nat
  | lastError, _attempt, 0 =>
      (⟨false, platform, url, "Unknown", some (pyStrOpt lastError)⟩, 0)
  | _lastError, attempt, remaining + 1 =>
      if cancelled attempt then
        (⟨false, platform, url, "Unknown", some "Download cancelled"⟩, 0)
      else
        match engine attempt with
        | .ok title => (⟨true, platform, url, title, none⟩, 1)
        | .err msg =>
            let rest := downloadLoop platform url cancelled engine
              (some msg) (attempt + 1) remaining
            (rest.1, rest.2 + 1)

/-- Embedding of `AsyncDownloader._download_sync`: platform detection,
then the retry loop started with `attempt = 0`, `last_error = None`.
`retries` is a Python `int`, so it may be non-positive; the loop then
runs `max retries 0` times, i.e. `retries.toNat`. -/
def downloadSync (url : String) (cancelled : Nat → Bool)
    (engine : Nat → AttemptResult) (retries : Int) : Outcome × Nat :=
  downloadLoop (detect_platform url) url cancelled engine none 0 retries.toNat

/-! ### Progress throttle (desktop.py:507-540, `enqueue_progress`)

Per `(download_id, file_name)` the source keeps
`{"last_percent": None, "last_emit": 0.0}` (desktop.py:518-519) and
decides emission at desktop.py:524-532.  Times (`time.monotonic()`) and
percent values are modelled as rationals; the script inputs of the claim
are integer percents and tenth-of-second timestamps, on which Python
float comparison and rational comparison agree. -/

/-- Per-file throttle state, `emit_state[download_id][file_name]`. -/
structure FileEmitState where
  last_percent : Option ℚ
  last_emit : ℚ
deriving DecidableEq, Repr

/-- The `setdefault` value at desktop.py:518-519. -/
def initFileState : FileEmitState := ⟨none, 0⟩

/-- The `should_emit` decision of desktop.py:524-532.  `percent` is the
result of `extract_percent_value` (none when no percent is parseable),
`now` is `time.monotonic()`. -/
def shouldEmit (st : FileEmitState) (percent : Option ℚ) (now : ℚ) : Bool :=
  match percent with
  | none => decide ((0.8 : ℚ) ≤ now - st.last_emit)
  | some p =>
    match st.last_percent with
    | none => true
    | some lp =>
        decide (p = 100) || decide ((5 : ℚ) ≤ p - lp)
          || decide ((1.2 : ℚ) ≤ now - st.last_emit)

/-- One throttle step: on emission the state records the event's percent
(which may be `none`) and time (desktop.py:537-538); on suppression the
state is unchanged and the event dropped (desktop.py:534-535). -/
def stepEmit (st : FileEmitState) (percent : Option ℚ) (now : ℚ) :
    FileEmitState × Bool :=
  if shouldEmit st percent now then (⟨percent, now⟩, true) else (st, false)

/-- Events with a status other than "downloading" bypass the throttle and
are forwarded unconditionally (the `if status == "downloading"` guard at
desktop.py:510). -/
def enqueue_progress (status : String) (st : FileEmitState)
    (percent : Option ℚ) (now : ℚ) : FileEmitState × Bool :=
  if status == "downloading" then stepEmit st percent now else (st, true)

/-- Run the throttle over a scripted list of "downloading" events for one
`(task, file)` pair, returning the emitted subsequence. -/
def emittedEvents : FileEmitState → List (Option ℚ × ℚ) → List (Option ℚ × ℚ)
  | _, [] => []
  | st, e :: rest =>
      match stepEmit st e.1 e.2 with
      | (st2, true) => e :: emittedEvents st2 rest
      | (st2, false) => emittedEvents st2 rest

/-- The scripted strictly increasing percent sequence `0,3,4,5,10,...,100`
of the claim. -/
def scriptPercents : List ℚ :=
  [0, 3, 4, 5, 10, 15, 20, 25, 30, 35, 40, 45, 50, 55, 60, 65,
   70, 75, 80, 85, 90, 95, 100]

/-- The scripted event stream: event `i` carries percent
`scriptPercents[i]` at time `i/10` seconds — far faster than the 1.2 s
heartbeat. -/
def throttleScript : List (Option ℚ × ℚ) :=
  scriptPercents.enum.map (fun ip => (some ip.2, (ip.1 : ℚ) / 10))

/-! ### Batch gathering (`download_multiple_async`,
async_downloader.py:203-239)

`download_multiple_async` builds one `download_async` coroutine per URL in
submission order and returns `await asyncio.gather(*tasks)`.  `gather` is
the Python standard library: it may complete the tasks in any order but
delivers their results indexed by original position.  `gatherInOrder`
embeds that contract explicitly: a completion schedule (a permutation of
the task indices) produces `(index, outcome)` completion signals, which
are then read back in original-index order. -/

/-- Submission-order outcomes of a batch: task `i` runs `_download_sync`
on `urls[i]` with its own cancellation flag and engine behaviour
(`download_id = "download_{i}"`, async_downloader.py:234). -/
def taskOutcomes (urls : List String) (cancelled : Nat → Nat → Bool)
    (engines : Nat → Nat → AttemptResult) (retries : Int) : List Outcome :=
  urls.enum.map
    (fun iu => (downloadSync iu.2 (cancelled iu.1) (engines iu.1) retries).1)

/-- Result collection of `asyncio.gather`: tasks complete in the order
given by `sched`; each completion signal pairs the task's original index
with its outcome; the returned list is read off by original index. -/
def gatherInOrder (tasks : List Outcome) (sched : List Nat) : List Outcome :=
  let completed := sched.filterMap
    (fun i => (tasks[i]?).map (fun o => (i, o)))
  (List.range tasks.length).filterMap (fun i => completed.lookup i)

/-- Embedding of `AsyncDownloader.download_multiple_async`
(async_downloader.py:203-239), parameterised by the completion schedule
`sched` chosen by the event loop. -/
def download_multiple_async (urls : List String)
    (cancelled : Nat → Nat → Bool) (engines : Nat → Nat → AttemptResult)
    (retries : Int) (sched : List Nat) : List Outcome :=
  gatherInOrder (taskOutcomes urls cancelled engines retries) sched

/-! ### History store (history.py) -/

/-- A history record as stored in the JSON list: the outcome fields the
claims touch, plus the `added_at` stamp (modelled as an abstract tick). -/
structure HistRecord where
  title : String
  platform : String
  success : Bool
  added_at : Nat
deriving DecidableEq, Repr

/-- `add_download` (history.py:49-66) on the already-loaded list: build
the record and `history.append(record)`. -/
def historyAppend (h : List HistRecord) (r : HistRecord) : List HistRecord :=
  h ++ [r]

/-- `get_history` (history.py:68-101): optional platform filter
(`if platform:` — `none` models absent/empty), optional success filter,
reverse to newest-first, then `history[:limit]` guarded by `if limit:`
(so a limit of 0 is falsy and does not truncate). -/
def get_history (h : List HistRecord) (platform : Option String)
    (limit : Option Nat) (success_only : Bool) : List HistRecord :=
  let h1 : List HistRecord := match platform with
    | some p => h.filter (fun r => r.platform == p)
    | none => h
  let h2 := if success_only then h1.filter (fun r => r.success) else h1
  let h3 := h2.reverse
  match limit with
  | some l => if l ≠ 0 then h3.take l else h3
  | none => h3

/-- The dictionary returned by `get_stats` (history.py:103-126);
`by_platform` is the insertion-ordered Python dict as an association
list. -/
structure Stats where
  total_downloads : Nat
  successful : Nat
  failed : Nat
  by_platform : List (String × Nat)
deriving DecidableEq, Repr

/-- One step of the `by_platform` accumulation loop (history.py:116-119):
`platforms[platform] = platforms.get(platform, 0) + 1`. -/
def bumpPlatform (m : List (String × Nat)) (p : String) : List (String × Nat) :=
  match m.lookup p with
  | some c => m.map (fun kv => if kv.1 == p then (kv.1, c + 1) else kv)
  | none => m ++ [(p, 1)]

/-- `get_stats` (history.py:103-126). -/
def get_stats (h : List HistRecord) : Stats :=
  { total_downloads := h.length
    successful := (h.filter (fun r => r.success)).length
    failed := h.length - (h.filter (fun r => r.success)).length
    by_platform := h.foldl (fun m r => bumpPlatform m r.platform) [] }

/-- The raw file write inside `_save_history`: `json.dump` either
succeeds, replacing the file contents, or raises. -/
def rawWrite (writeFails : Bool) (newHist _stored : List HistRecord) :
    Except String (List HistRecord) :=
  if writeFails then .error "write failed" else .ok newHist

/-- `_save_history` (history.py:41-47): the write is wrapped in
`try/except Exception`, so a failure is logged and swallowed and the
stored file keeps its previous contents. -/
def saveHistory (writeFails : Bool) (newHist stored : List HistRecord) :
    List HistRecord :=
  match rawWrite writeFails newHist stored with
  | .ok st2 => st2
  | .error _ => stored

/-- `_load_history` (history.py:32-39): a read failure is caught and
yields the empty list. -/
def loadHistory (readFails : Bool) (stored : List HistRecord) :
    List HistRecord :=
  if readFails then [] else stored

/-- `add_download` (history.py:49-66): load (failure caught), append the
record, save (failure caught).  The `Except` result makes the absence of
an escaping exception explicit: an uncaught error would be `.error`. -/
def add_download (readFails writeFails : Bool) (info : HistRecord)
    (stored : List HistRecord) : Except String (List HistRecord) :=
  let history := loadHistory readFails stored
  .ok (saveHistory writeFails (historyAppend history info) stored)

/-! ### Config loading (config.py) -/

/-- A JSON-ish config value. -/
inductive ConfigVal where
  | s (v : String)
  | b (v : Bool)
  | i (v : Int)
deriving DecidableEq, Repr

/-- `DEFAULT_CONFIG` (config.py:11-21). -/
def DEFAULT_CONFIG : List (String × ConfigVal) :=
  [("output_dir", .s "uDownload"),
   ("audio_only", .b false),
   ("video_quality", .s "best"),
   ("audio_quality", .s "192"),
   ("format_preference", .s "mp4"),
   ("max_concurrent_downloads", .i 1),
   ("timeout", .i 300),
   ("retries", .i 3),
   ("verbose", .b false)]

/-- Key list of a dict. -/
def keys (d : List (String × ConfigVal)) : List String := d.map (fun kv => kv.1)

/-- New value of one base entry under `dict.update`. -/
def updEntry (upd : List (String × ConfigVal)) (kv : String × ConfigVal) :
    String × ConfigVal :=
  match upd.lookup kv.1 with
  | some v => (kv.1, v)
  | none => kv

/-- Python `base.update(upd)` on an insertion-ordered dict: existing keys
keep their position with the new value; keys new to `base` are appended
in `upd` order. -/
def dictUpdate (base upd : List (String × ConfigVal)) :
    List (String × ConfigVal) :=
  base.map (updEntry upd) ++ upd.filter (fun kv => !((keys base).contains kv.1))

/-- `load_config` (config.py:24-58).  A file argument is `none` when the
path is not given or does not exist, `some none` when it exists but
reading/parsing raises (the `except` branch: logged, fall through), and
`some (some d)` when `json.load` yields `d`.  The provided path is tried
first, then the default location; each successful load updates a copy of
the defaults and returns. -/
def load_config (pathFile defaultFile : Option (Option (List (String × ConfigVal)))) :
    List (String × ConfigVal) :=
  match pathFile with
  | some (some user) => dictUpdate DEFAULT_CONFIG user
  | _ =>
    match defaultFile with
    | some (some user) => dictUpdate DEFAULT_CONFIG user
    | _ => DEFAULT_CONFIG

/-! ### Concurrency bound (async_downloader.py:15-24, desktop.py:601-610)

`AsyncDownloader.__init__` stores `max_concurrent` and creates
`ThreadPoolExecutor(max_workers=max_concurrent)` once.
`uDownloaderApp.open_settings` (desktop.py:607) reassigns only the
`max_concurrent` attribute; the executor — and hence the pool size that
actually bounds concurrency — keeps its construction-time value. -/

/-- The two size-carrying fields of an `AsyncDownloader`. -/
structure AsyncDownloaderState where
  max_concurrent : Nat
  executor_max_workers : Nat
deriving DecidableEq, Repr

/-- `AsyncDownloader.__init__` (async_downloader.py:15-24). -/
def asyncDownloaderInit (max_concurrent : Nat) : AsyncDownloaderState :=
  ⟨max_concurrent, max_concurrent⟩

/-- The reconfiguration performed by `open_settings` (desktop.py:607):
`self.async_downloader.max_concurrent = new`; the executor is untouched. -/
def open_settings_apply (d : AsyncDownloaderState) (newMax : Nat) :
    AsyncDownloaderState :=
  { d with max_concurrent := newMax }

/-- Modelled from the spec: the peak number of concurrently executing
tasks when a batch of `batch` tasks runs on a worker pool of `workers`
workers (`ThreadPoolExecutor` is standard-library code; the spec's §4.5
and §5 contract is a bounded pool that blocks further dispatch once all
workers are busy, so with `batch ≥ workers` every worker becomes busy and
the peak is `min workers batch`). -/
def peakConcurrency (workers batch : Nat) : Nat := min workers batch

/-! ## Theorems -/

/-- When every engine call fails and cancellation is never requested, a
loop given fuel `k + 1` makes exactly `k + 1` engine calls and reports the
message of the last attempt, `msgs (attempt + k)`. -/
lemma downloadLoop_all_fail (p u : String) (msgs : Nat → String) :
    ∀ (k attempt : Nat) (le : Option String),
      downloadLoop p u (fun _ => false) (fun n => .err (msgs n))
          le attempt (k + 1)
        = (⟨false, p, u, "Unknown", some (msgs (attempt + k))⟩, k + 1) := by
  intro k
  induction k with
  | zero =>
      intro attempt le
      simp [downloadLoop, pyStrOpt]
  | succ k ih =>
      intro attempt le
      have harith : attempt + 1 + k = attempt + (k + 1) := by omega
      rw [downloadLoop]
      simp only [ih, Bool.false_eq_true, if_false, harith]

/-- C1: for every `retryLimit ≥ 1`, if every engine call fails, the Task
Runner (`_download_sync`) makes exactly `retryLimit` engine attempts and
returns an outcome with `success = false` whose error message is the
message of the last attempt's error. -/
theorem taskRunner_all_attempts_fail (url : String) (msgs : Nat → String)
    (retries : Int) (hr : 1 ≤ retries) :
    (downloadSync url (fun _ => false) (fun n => .err (msgs n)) retries).2
        = retries.toNat
    ∧ (retries.toNat : Int) = retries
    ∧ (downloadSync url (fun _ => false) (fun n => .err (msgs n)) retries).1
        = ⟨false, detect_platform url, url, "Unknown",
            some (msgs (retries.toNat - 1))⟩ := by
  obtain ⟨k, hk⟩ : ∃ k, retries.toNat = k + 1 := ⟨retries.toNat - 1, by omega⟩
  unfold downloadSync
  rw [hk, downloadLoop_all_fail]
  exact ⟨rfl, by omega, by simp [hk]⟩

/-- Witness for C1 at `retries = 3` with error messages `"e0", "e1", "e2"`. -/
theorem taskRunner_all_attempts_fail_witness :
    (downloadSync "u" (fun _ => false)
        (fun n => .err ("e" ++ toString n)) 3).2 = (3 : Int).toNat
    ∧ (((3 : Int).toNat : Int)) = 3
    ∧ (downloadSync "u" (fun _ => false)
        (fun n => .err ("e" ++ toString n)) 3).1
        = ⟨false, detect_platform "u", "u", "Unknown",
            some ("e" ++ toString ((3 : Int).toNat - 1))⟩ :=
  taskRunner_all_attempts_fail "u" (fun n => "e" ++ toString n) 3 (by norm_num)

/-- C2: if the cancellation flag is already set when the first attempt
boundary is reached, the Task Runner returns `success = false` with error
message "Download cancelled" and makes zero engine calls (the engine
function is arbitrary and the call count is 0); the flag is only read at
attempt boundaries — in the embedding each engine call is one atomic
step of the loop, never interrupted. -/
theorem taskRunner_cancelled_before_first_attempt (url : String)
    (cancelled : Nat → Bool) (engine : Nat → AttemptResult) (retries : Int)
    (hc : cancelled 0 = true) (hr : 1 ≤ retries) :
    downloadSync url cancelled engine retries
      = (⟨false, detect_platform url, url, "Unknown",
          some "Download cancelled"⟩, 0) := by
  obtain ⟨k, hk⟩ : ∃ k, retries.toNat = k + 1 := ⟨retries.toNat - 1, by omega⟩
  unfold downloadSync
  rw [hk, downloadLoop]
  simp [hc]

/-- Witness for C2: flag set, one allowed retry, an engine that would
succeed is never consulted. -/
theorem taskRunner_cancelled_witness :
    downloadSync "u" (fun _ => true) (fun _ => .ok "t") 1
      = (⟨false, detect_platform "u", "u", "Unknown",
          some "Download cancelled"⟩, 0) :=
  taskRunner_cancelled_before_first_attempt "u" (fun _ => true)
    (fun _ => .ok "t") 1 rfl (by norm_num)

/-- C10: with `retries ≤ 0` the loop body never executes: zero engine
calls, `success = false`, title "Unknown", and error message `str(None) =
"None"` — for any cancellation flag, so in particular when cancellation
is never requested. -/
theorem taskRunner_nonpositive_retries (url : String)
    (cancelled : Nat → Bool) (engine : Nat → AttemptResult) (retries : Int)
    (hr : retries ≤ 0) :
    downloadSync url cancelled engine retries
      = (⟨false, detect_platform url, url, "Unknown", some "None"⟩, 0) := by
  have h0 : retries.toNat = 0 := by omega
  unfold downloadSync
  rw [h0]
  rfl

/-- Witness for C10 at `retries = 0`. -/
theorem taskRunner_nonpositive_retries_witness :
    downloadSync "u" (fun _ => false) (fun _ => .ok "t") 0
      = (⟨false, detect_platform "u", "u", "Unknown", some "None"⟩, 0) :=
  taskRunner_nonpositive_retries "u" (fun _ => false) (fun _ => .ok "t") 0
    (by norm_num)

/-- C6: `detect_platform` is a pure total Lean function; a URL matching
the YouTube rule (case-insensitive containment of "youtube.com" or
"youtu.be") maps to "YouTube"; each later rule applies exactly when no
earlier rule matched (first rule in the fixed order wins); a URL matching
no rule maps to "Other". -/
theorem detect_platform_table (url : String) :
    (matchesYouTube url = true → detect_platform url = "YouTube")
    ∧ (matchesYouTube url = false → matchesTwitter url = true →
        detect_platform url = "Twitter")
    ∧ (matchesYouTube url = false → matchesTwitter url = false →
        matchesFacebook url = true → detect_platform url = "Facebook")
    ∧ (matchesYouTube url = false → matchesTwitter url = false →
        matchesFacebook url = false → matchesInstagram url = true →
        detect_platform url = "Instagram")
    ∧ (matchesYouTube url = false → matchesTwitter url = false →
        matchesFacebook url = false → matchesInstagram url = false →
        matchesTikTok url = true → detect_platform url = "TikTok")
    ∧ (matchesYouTube url = false → matchesTwitter url = false →
        matchesFacebook url = false → matchesInstagram url = false →
        matchesTikTok url = false → matchesVimeo url = true →
        detect_platform url = "Vimeo")
    ∧ (matchesYouTube url = false → matchesTwitter url = false →
        matchesFacebook url = false → matchesInstagram url = false →
        matchesTikTok url = false → matchesVimeo url = false →
        detect_platform url = "Other") := by
  refine ⟨?_, ?_, ?_, ?_, ?_, ?_, ?_⟩ <;> intros <;> simp_all [detect_platform]

/-- Witness for C6: a mixed-case youtu.be URL classifies as YouTube. -/
theorem detect_platform_table_witness :
    detect_platform "https://YouTu.be/abc" = "YouTube" :=
  (detect_platform_table "https://YouTu.be/abc").1 (by decide)

/-- C7: after appending record A then record B to an empty history,
`get_history(limit=1)` returns only B (newest first); `get_stats` over
one success and one failure reports total 2, successful 1, failed 1. -/
theorem history_limit_and_stats :
    get_history
        (historyAppend (historyAppend [] ⟨"A", "YouTube", true, 0⟩)
          ⟨"B", "Vimeo", false, 1⟩)
        none (some 1) false
      = [⟨"B", "Vimeo", false, 1⟩]
    ∧ (get_stats [⟨"A", "YouTube", true, 0⟩,
        ⟨"B", "Vimeo", false, 1⟩]).total_downloads = 2
    ∧ (get_stats [⟨"A", "YouTube", true, 0⟩,
        ⟨"B", "Vimeo", false, 1⟩]).successful = 1
    ∧ (get_stats [⟨"A", "YouTube", true, 0⟩,
        ⟨"B", "Vimeo", false, 1⟩]).failed = 1 := by
  exact ⟨rfl, rfl, rfl, rfl⟩

/-- C8: `add_download` returns normally for every record, every stored
history, and every combination of read/write failures (first conjunct);
in particular a write failure is swallowed and leaves the stored file as
it was (second conjunct, `writeFails = true`). -/
theorem add_download_swallows_write_errors
    (readFails writeFails : Bool) (info : HistRecord)
    (stored : List HistRecord) :
    (∃ result, add_download readFails writeFails info stored
        = Except.ok result)
    ∧ add_download readFails true info stored = Except.ok stored :=
  ⟨⟨saveHistory writeFails
      (historyAppend (loadHistory readFails stored) info) stored, rfl⟩,
    rfl⟩

/-- `dict.update` never changes the key of an existing entry. -/
lemma updEntry_fst (upd : List (String × ConfigVal))
    (kv : String × ConfigVal) : (updEntry upd kv).1 = kv.1 := by
  unfold updEntry
  cases h : upd.lookup kv.1 <;> simp [h]

/-- `dict.update` keeps every key of the base dict. -/
lemma mem_keys_dictUpdate (base upd : List (String × ConfigVal))
    (k : String) (hk : k ∈ keys base) : k ∈ keys (dictUpdate base upd) := by
  unfold keys at hk
  unfold dictUpdate keys
  rw [List.map_append]
  apply List.mem_append_left
  obtain ⟨kv, hkv, hfst⟩ := List.mem_map.1 hk
  exact List.mem_map.2 ⟨updEntry upd kv, List.mem_map.2 ⟨kv, hkv, rfl⟩,
    by rw [updEntry_fst, hfst]⟩

/-- C9: `load_config` is total: whatever the two candidate files hold
(absent, unreadable/malformed, or parsed), every default key is a key of
the returned dict, and when no file loads successfully the result is
exactly `DEFAULT_CONFIG`. -/
theorem load_config_total_with_defaults
    (pathFile defaultFile : Option (Option (List (String × ConfigVal)))) :
    (∀ k ∈ keys DEFAULT_CONFIG, k ∈ keys (load_config pathFile defaultFile))
    ∧ ((∀ u, pathFile ≠ some (some u)) →
        (∀ u, defaultFile ≠ some (some u)) →
        load_config pathFile defaultFile = DEFAULT_CONFIG) := by
  constructor
  · intro k hk
    rcases pathFile with _ | pf
    · rcases defaultFile with _ | df
      · simpa [load_config] using hk
      · rcases df with _ | d
        · simpa [load_config] using hk
        · simpa [load_config] using mem_keys_dictUpdate DEFAULT_CONFIG d k hk
    · rcases pf with _ | p
      · rcases defaultFile with _ | df
        · simpa [load_config] using hk
        · rcases df with _ | d
          · simpa [load_config] using hk
          · simpa [load_config] using mem_keys_dictUpdate DEFAULT_CONFIG d k hk
      · simpa [load_config] using mem_keys_dictUpdate DEFAULT_CONFIG p k hk
  · intro h1 h2
    rcases pathFile with _ | pf
    · rcases defaultFile with _ | df
      · rfl
      · rcases df with _ | d
        · rfl
        · exact absurd rfl (h2 d)
    · rcases pf with _ | p
      · rcases defaultFile with _ | df
        · rfl
        · rcases df with _ | d
          · rfl
          · exact absurd rfl (h2 d)
      · exact absurd rfl (h1 p)

/-- Witness for C9: with no config file anywhere, the default key
"output_dir" is present and the result is exactly the defaults. -/
theorem load_config_total_with_defaults_witness :
    "output_dir" ∈ keys (load_config none none)
    ∧ load_config none none = DEFAULT_CONFIG :=
  ⟨(load_config_total_with_defaults none none).1 "output_dir" (by decide),
    (load_config_total_with_defaults none none).2
      (fun _ h => Option.noConfusion h) (fun _ h => Option.noConfusion h)⟩

/-- C3, counterexample to the reconfiguration half of the claim: start
the downloader with `max_concurrent = 2`, apply `open_settings` with the
new value 1; a following batch of 2 tasks still reaches concurrency 2,
because the executor keeps its construction-time pool, which exceeds the
new value 1. -/
theorem reconfigure_smaller_pool_counterexample :
    (open_settings_apply (asyncDownloaderInit 2) 1).max_concurrent = 1
    ∧ peakConcurrency
        (open_settings_apply (asyncDownloaderInit 2) 1).executor_max_workers
        2 = 2
    ∧ ¬ (peakConcurrency
          (open_settings_apply (asyncDownloaderInit 2) 1).executor_max_workers
          2
        ≤ (open_settings_apply (asyncDownloaderInit 2) 1).max_concurrent) := by
  decide

/-- C3 as amended: a freshly constructed downloader never exceeds its
`max_concurrent` for any batch size, and after a reconfiguration every
subsequent batch is still bounded by the construction-time pool size
`m` — not by the newly assigned value. -/
theorem concurrency_bounded_by_construction_pool (m newMax batch : Nat) :
    peakConcurrency (asyncDownloaderInit m).executor_max_workers batch
        ≤ (asyncDownloaderInit m).max_concurrent
    ∧ peakConcurrency
        (open_settings_apply (asyncDownloaderInit m) newMax).executor_max_workers
        batch ≤ m :=
  ⟨Nat.min_le_left _ _, Nat.min_le_left _ _⟩

set_option maxHeartbeats 1000000 in
/-- C4: a "downloading" event is emitted exactly when it has no parseable
percent and at least 0.8 s elapsed since the last emission for that
(task, file); or it is an event with a numeric percent while no percent
has been emitted yet for that file; or its percent equals 100.0 or
exceeds the last emitted percent by at least 5.0 points; or at least
1.2 s elapsed since the last emission.  And on the scripted strictly
increasing sequence 0,3,4,5,10,...,100 delivered every 0.1 s, the emitted
subsequence is exactly the first event, each event advancing ≥ 5 points
over the last emission, and the 100 event: percents 0,5,10,...,100. -/
theorem throttle_emission_policy :
    (∀ (st : FileEmitState) (percent : Option ℚ) (now : ℚ),
        shouldEmit st percent now = true ↔
          (percent = none ∧ (0.8 : ℚ) ≤ now - st.last_emit)
          ∨ (percent.isSome = true ∧ st.last_percent = none)
          ∨ (∃ p lp, percent = some p ∧ st.last_percent = some lp
              ∧ (p = 100 ∨ (5 : ℚ) ≤ p - lp))
          ∨ (1.2 : ℚ) ≤ now - st.last_emit)
    ∧ (emittedEvents initFileState throttleScript).map Prod.fst
        = [some 0, some 5, some 10, some 15, some 20, some 25, some 30,
           some 35, some 40, some 45, some 50, some 55, some 60, some 65,
           some 70, some 75, some 80, some 85, some 90, some 95,
           some 100] := by
  constructor
  · rintro ⟨slp, sle⟩ percent now
    dsimp only
    rcases percent with _ | p
    · constructor
      · intro h8
        refine Or.inl ⟨rfl, ?_⟩
        simpa [shouldEmit] using h8
      · rintro (⟨_, h8⟩ | ⟨hs, _⟩ | ⟨p, lp, hp, _, _⟩ | h12)
        · simpa [shouldEmit] using h8
        · exact absurd hs (by simp)
        · exact absurd hp (by simp)
        · simp only [shouldEmit, decide_eq_true_eq]
          linarith
    · rcases slp with _ | lp
      · constructor
        · intro _
          exact Or.inr (Or.inl ⟨rfl, rfl⟩)
        · intro _
          simp [shouldEmit]
      · constructor
        · intro hem
          have hem2 : (p = 100 ∨ (5 : ℚ) ≤ p - lp)
              ∨ (1.2 : ℚ) ≤ now - sle := by
            simpa [shouldEmit] using hem
          rcases hem2 with (h100 | h5) | h12
          · exact Or.inr (Or.inr (Or.inl ⟨p, lp, rfl, rfl, Or.inl h100⟩))
          · exact Or.inr (Or.inr (Or.inl ⟨p, lp, rfl, rfl, Or.inr h5⟩))
          · exact Or.inr (Or.inr (Or.inr h12))
        · rintro (⟨hne, _⟩ | ⟨_, hnone⟩ | ⟨q, lq, hq, hlq, hd⟩ | h12)
          · exact absurd hne (by simp)
          · exact absurd hnone (by simp)
          · cases hq
            cases hlq
            simp only [shouldEmit, Bool.or_eq_true, decide_eq_true_eq]
            rcases hd with h100 | h5
            · exact Or.inl (Or.inl h100)
            · exact Or.inl (Or.inr h5)
          · simp only [shouldEmit, Bool.or_eq_true, decide_eq_true_eq]
            exact Or.inr h12
  · norm_num [emittedEvents, stepEmit, shouldEmit, initFileState,
      throttleScript, scriptPercents, List.enum, List.enumFrom]

/-- `asyncio.gather` result collection: if the completion schedule lists
each task index once, looking an index up among the completion signals
recovers that task's outcome. -/
lemma lookup_completion (tasks : List Outcome) :
    ∀ (sched : List Nat) (i : Nat), i ∈ sched → i < tasks.length →
      (sched.filterMap (fun j => (tasks[j]?).map (fun o => (j, o)))).lookup i
        = tasks[i]? := by
  intro sched
  induction sched with
  | nil =>
      intro i hi _
      simp at hi
  | cons j rest ih =>
      intro i hi hlen
      simp only [List.filterMap_cons]
      cases h : tasks[j]? with
      | none =>
          have hmem : i ∈ rest := by
            rcases List.mem_cons.1 hi with he | hm
            · exfalso
              rw [he] at hlen
              have hnone := List.getElem?_eq_none_iff.1 h
              omega
            · exact hm
          simpa using ih i hmem hlen
      | some o =>
          by_cases hij : i = j
          · subst hij
            simp [List.lookup, h]
          · have hmem : i ∈ rest := by
              rcases List.mem_cons.1 hi with he | hm
              · exact absurd he hij
              · exact hm
            have hbeq : (i == j) = false := by
              simpa using hij
            simpa [List.lookup, hbeq] using ih i hmem hlen

/-- Reading a list back by index recovers the list. -/
lemma range_filterMap_get {α : Type} (l : List α) :
    (List.range l.length).filterMap (fun i => l[i]?) = l := by
  induction l with
  | nil => simp
  | cons a l ih =>
      rw [List.length_cons, List.range_succ_eq_map, List.filterMap_cons]
      simp only [List.getElem?_cons_zero, List.filterMap_map]
      have hcomp : ((fun i => (a :: l)[i]?) ∘ Nat.succ) = fun i => l[i]? := by
        funext i
        simp
      rw [hcomp, ih]

/-- Gathering under any completion schedule that is a permutation of the
task indices returns the outcomes in original submission order. -/
lemma gatherInOrder_of_perm (tasks : List Outcome) (sched : List Nat)
    (hperm : sched.Perm (List.range tasks.length)) :
    gatherInOrder tasks sched = tasks := by
  unfold gatherInOrder
  have hcong : ∀ i ∈ List.range tasks.length,
      (sched.filterMap (fun j => (tasks[j]?).map (fun o => (j, o)))).lookup i
        = tasks[i]? := by
    intro i hi
    have hilt : i < tasks.length := List.mem_range.1 hi
    exact lookup_completion tasks sched i
      (hperm.mem_iff.2 (List.mem_range.2 hilt)) hilt
  rw [List.filterMap_congr hcong, range_filterMap_get]

/-- C5: awaiting a batch returns one outcome per URL in original
submission order, for every completion order of the tasks; and for the
concrete batch of 3 URLs with an engine succeeding on every call, all 3
outcomes (in submission order) have `success = true`. -/
theorem download_multiple_ordered :
    (∀ (urls : List String) (cancelled : Nat → Nat → Bool)
        (engines : Nat → Nat → AttemptResult) (retries : Int)
        (sched : List Nat),
        sched.Perm (List.range urls.length) →
        download_multiple_async urls cancelled engines retries sched
          = taskOutcomes urls cancelled engines retries)
    ∧ ((download_multiple_async ["u0", "u1", "u2"] (fun _ _ => false)
          (fun _ _ => .ok "T") 3 [2, 0, 1]).map Outcome.success
        = [true, true, true]) := by
  constructor
  · intro urls cancelled engines retries sched hperm
    have hlen : (taskOutcomes urls cancelled engines retries).length
        = urls.length := by
      simp [taskOutcomes]
    unfold download_multiple_async
    refine gatherInOrder_of_perm _ _ ?_
    rw [hlen]
    exact hperm
  · rfl

/-- Witness for C5: a 2-URL batch completing in reversed order still
yields submission-order outcomes. -/
theorem download_multiple_ordered_witness :
    download_multiple_async ["a", "b"] (fun _ _ => false)
        (fun _ _ => .ok "T") 1 [1, 0]
      = taskOutcomes ["a", "b"] (fun _ _ => false) (fun _ _ => .ok "T") 1 :=
  download_multiple_ordered.1 ["a", "b"] (fun _ _ => false)
    (fun _ _ => .ok "T") 1 [1, 0] (by decide)

end UDownloader
